import Mathlib

/-!
# Verification of `rasberry_perception_pkg/visualisation.py`

A shallow embedding of the visualisation module: the `LabelColours` palette,
the `draw_detection_msg_on_image` renderer, the `MarkerPublisher` and the
`PoseArrayPublisher`, together with theorems about the behaviours the
specification claims.

Python/numpy conventions modelled explicitly:
* Python list subscription `xs[i]` wraps negative indices in `[-len, 0)` and
  raises `IndexError` outside `[-len, len)`; subscription by a non-integer
  raises `TypeError`.
* numpy fancy-indexed assignment `image[(xs, ys)] = ...` indexes rows by `xs`
  and columns by `ys` with the same negative-wrap rule, raising on
  out-of-bounds entries.
* Storing a float into a `uint8` buffer truncates the (here always
  non-negative) value toward zero.
-/

set_option autoImplicit false

namespace RasberryPerception

/-- Python exception kinds that the embedded code can raise. -/
inductive PyErr where
  | typeError
  | indexError
  | valueError
  | zeroDivisionError
  deriving DecidableEq, Repr

/-- A Python value appearing as a component of a point tuple: either a number
(modelled as an integer) or a string. -/
inductive PyVal where
  | int (i : Int)
  | str (s : String)
  deriving DecidableEq, Repr

/-- Python list subscription `xs[i]` for an integer `i`: indices in
`[0, len)` read directly, indices in `[-len, 0)` wrap from the end, anything
else raises `IndexError`. -/
def pyListGet {α : Type} (xs : List α) (i : Int) : Except PyErr α :=
  if i < 0 then
    if -(xs.length : Int) ≤ i then
      match xs.get? ((xs.length : Int) + i).toNat with
      | some a => .ok a
      | none => .error .indexError
    else .error .indexError
  else
    match xs.get? i.toNat with
    | some a => .ok a
    | none => .error .indexError

/-- Python list subscription by an arbitrary value: a string subscript raises
`TypeError` (`list indices must be integers`). -/
def pyListGetVal {α : Type} (xs : List α) (v : PyVal) : Except PyErr α :=
  match v with
  | .int i => pyListGet xs i
  | .str _ => .error .typeError

/-- Python `int()` on a rational: truncation toward zero. -/
def pyInt (q : ℚ) : Int :=
  if q < 0 then ⌈q⌉ else ⌊q⌋

/-- The default colour list of `LabelColours` (22 RGB triples). -/
def defaultColourList : List (List ℚ) :=
  [[230, 25, 75], [60, 180, 75], [255, 225, 25], [0, 130, 200], [245, 130, 48], [145, 30, 180],
   [70, 240, 240], [240, 50, 230], [210, 245, 60], [250, 190, 190], [0, 128, 128],
   [230, 190, 255], [170, 110, 40], [255, 250, 200], [128, 0, 0], [170, 255, 195],
   [128, 128, 0], [255, 215, 180], [0, 0, 128], [128, 128, 128], [255, 255, 255], [0, 0, 0]]

/-- `LabelColours.__getitem__`: negative indices are folded by absolute value,
indices at or beyond the length are reduced modulo the length, and the final
plain list subscription is performed.  A `none` result models a raised
exception (`ZeroDivisionError` on an empty palette, since `item % 0` raises
before the subscription). -/
def labelColoursGet {α : Type} (colours : List α) (item : Int) : Option α :=
  let item₁ := if item < 0 then item * (-1) else item
  if item₁ ≥ (colours.length : Int) then
    if colours.length = 0 then none
    else
      match pyListGet colours (item₁ % (colours.length : Int)) with
      | .ok a => some a
      | .error _ => none
  else
    match pyListGet colours item₁ with
    | .ok a => some a
    | .error _ => none

/-! ## The image buffer and `draw_detection_msg_on_image` -/

/-- An image buffer: a rectangular array of pixels, each a list of `uint8`
channel values (rows × columns × channels). -/
abbrev Image := List (List (List ℕ))

/-- Number of rows (numpy axis 0). -/
def imgHeight (img : Image) : ℕ := img.length

/-- Number of columns (numpy axis 1). -/
def imgWidth (img : Image) : ℕ := ((img.get? 0).getD []).length

/-- Read the pixel at row `r`, column `c` (an empty list when out of range). -/
def getPx (img : Image) (r c : ℕ) : List ℕ := (((img.get? r).getD []).get? c).getD []

/-- Pointwise transformation of an image, handing the position to `f`. -/
def imageMap2 (img : Image) (f : ℕ → ℕ → List ℕ → List ℕ) : Image :=
  img.mapIdx fun r row => row.mapIdx fun c px => f r c px

/-- Storing a float into a `uint8` buffer: C truncation toward zero.  Every
value stored by the code under study is non-negative, so this is the floor. -/
def u8 (q : ℚ) : ℕ := (⌊q⌋).toNat

/-- Whether `(r, c)` lies on the outline of the axis-aligned rectangle with
corners `pt1` and `pt2` (points are `(x, y)` = `(column, row)`, as in cv2). -/
def onRectBorder (pt1 pt2 : Int × Int) (r c : ℕ) : Bool :=
  let xlo := min pt1.1 pt2.1
  let xhi := max pt1.1 pt2.1
  let ylo := min pt1.2 pt2.2
  let yhi := max pt1.2 pt2.2
  decide ((xlo ≤ (c : Int) ∧ (c : Int) ≤ xhi ∧ ((r : Int) = ylo ∨ (r : Int) = yhi)) ∨
          (ylo ≤ (r : Int) ∧ (r : Int) ≤ yhi ∧ ((c : Int) = xlo ∨ (c : Int) = xhi)))

/-- Whether `(r, c)` lies inside the filled rectangle with corners `pt1`,
`pt2`. -/
def inRectFilled (pt1 pt2 : Int × Int) (r c : ℕ) : Bool :=
  decide (min pt1.1 pt2.1 ≤ (c : Int) ∧ (c : Int) ≤ max pt1.1 pt2.1 ∧
          min pt1.2 pt2.2 ≤ (r : Int) ∧ (r : Int) ≤ max pt1.2 pt2.2)

/-- Overwrite a pixel's channels with a colour (missing trailing channels of
the colour read as 0, as cv2 pads its scalar argument). -/
def setColour (px : List ℕ) (colour : List ℚ) : List ℕ :=
  px.mapIdx fun j _ => u8 ((colour.get? j).getD 0)

/-- `cv2.rectangle(image, pt1, pt2, color=...)` with the default thickness:
paint the outline pixels, silently clipping whatever falls outside the
image. -/
def drawRect (img : Image) (pt1 pt2 : Int × Int) (colour : List ℚ) : Image :=
  imageMap2 img fun r c px => if onRectBorder pt1 pt2 r c then setColour px colour else px

/-- `cv2.rectangle(..., thickness=-1)`: paint the filled rectangle. -/
def drawFilledRect (img : Image) (pt1 pt2 : Int × Int) (colour : List ℚ) : Image :=
  imageMap2 img fun r c px => if inRectFilled pt1 pt2 r c then setColour px colour else px

/-- numpy index normalisation for one axis: indices in `[0, len)` are kept,
indices in `[-len, 0)` wrap from the end, anything else raises. -/
def npNormIdx (len : ℕ) (i : Int) : Option ℕ :=
  if 0 ≤ i ∧ i < (len : Int) then some i.toNat
  else if -(len : Int) ≤ i ∧ i < 0 then some ((len : Int) + i).toNat
  else none

/-- Normalise one `(row, column)` pair of a fancy index against the image
shape. -/
def npNormPair (h w : ℕ) (x y : Int) : Option (ℕ × ℕ) := do
  let r ← npNormIdx h x
  let c ← npNormIdx w y
  pure (r, c)

/-- One pixel of the mask blend
`image[mask] = (image[mask] * 0.5) + class_colour_f` where
`class_colour_f = [float(f) / 2 for f in class_colour]`: the old value is
halved and the colour channel, itself already halved, is added; the float
result is truncated on the store back into the `uint8` buffer. -/
def blendPixel (px : List ℕ) (classColour : List ℚ) : List ℕ :=
  px.mapIdx fun (j : ℕ) (v : ℕ) =>
    u8 ((v : ℚ) * (1 / 2) + ((classColour.get? j).getD 0) / 2)

/-- Normalise every `(row, column)` pair of a fancy index; `none` when any
entry is out of range. -/
def npNormList (h w : ℕ) : List (Int × Int) → Option (List (ℕ × ℕ))
  | [] => some []
  | p :: ps => do
    let q ← npNormPair h w p.1 p.2
    let qs ← npNormList h w ps
    pure (q :: qs)

/-- The whole fancy-indexed blend `image[(xs, ys)] = image[(xs, ys)] * 0.5 +
class_colour_f`: the row/column index arrays must pair up and stay in range,
and each indexed pixel is replaced by its blend against the original image
(numpy computes the right-hand side before assigning). -/
def blendMasked (img : Image) (xs ys : List Int) (classColour : List ℚ) :
    Except PyErr Image :=
  if xs.length ≠ ys.length then .error .indexError
  else
    match npNormList (imgHeight img) (imgWidth img) (xs.zip ys) with
    | none => .error .indexError
    | some idxs =>
      .ok (imageMap2 img fun r c px =>
        if (r, c) ∈ idxs then blendPixel px classColour else px)

/-- One bounding box of a detection message. -/
structure BoundingBox where
  x1 : ℚ
  y1 : ℚ
  x2 : ℚ
  y2 : ℚ
  score : ℚ
  class_id : Int
  deriving DecidableEq, Repr

/-- One instance-segmentation label: the row (`x`) and column (`y`) index
arrays of the mask pixels. -/
structure SegmentationLabel where
  x : List Int
  y : List Int
  deriving DecidableEq, Repr

/-- The detection message consumed by `draw_detection_msg_on_image`:
`class_labels` may be absent (`None`), `instances` is a list whose emptiness
the code treats as absence (`detection_msg.instances if detection_msg.instances
else None`). -/
structure DetectionMsg where
  class_labels : Option (List String)
  bounding_boxes : List BoundingBox
  instances : List SegmentationLabel
  deriving Repr

/-- Model of the external `cv2.getTextSize`: some fixed deterministic text
width/height per string.  No claim under study depends on glyph metrics, only
on whether the label step runs at all. -/
def getTextSize (s : String) : Int × Int := (10 * (s.length : Int), 10)

/-- The label-tag part of the per-detection loop body: look the class name up
by `class_id` (a plain Python list subscription, which can raise), build the
`"{name} {score}%"` string, and draw the filled tag-background rectangle.
`cv2.putText` hands the glyph rasterisation to the external font engine and is
not modelled further. -/
def labelStep (classes : List String) (img : Image) (bb : BoundingBox)
    (classColour : List ℚ) : Image × Option PyErr :=
  match pyListGet classes bb.class_id with
  | .error e => (img, some e)
  | .ok cname =>
    let className := cname ++ " " ++ toString (pyInt (bb.score * 100)) ++ "%"
    let ts := getTextSize className
    let pt1 : Int × Int := (pyInt bb.x1, pyInt bb.y1)
    let pt4 : Int × Int := (pt1.1 + ts.1 + 5, pt1.2 - ts.2 - 10)
    (drawFilledRect img pt1 pt4 classColour, none)

/-- The body of the `for detection_id in range(n_detections)` loop for one
detection: resolve the colour, draw the box outline, blend the mask when one
is present, draw the label tag when class names are present.  The image part
of the result carries whatever had been painted before a raise. -/
def processDetection (colours : List (List ℚ)) (classes : Option (List String))
    (img : Image) (bb : BoundingBox) (seg : Option SegmentationLabel) :
    Image × Option PyErr :=
  match labelColoursGet colours bb.class_id with
  | none => (img, some .zeroDivisionError)
  | some classColour =>
    let pt1 : Int × Int := (pyInt bb.x1, pyInt bb.y1)
    let pt2 : Int × Int := (pyInt bb.x2, pyInt bb.y2)
    let img₁ := drawRect img pt1 pt2 classColour
    match seg with
    | some sg =>
      match blendMasked img₁ sg.x sg.y classColour with
      | .error e => (img₁, some e)
      | .ok img₂ =>
        match classes with
        | none => (img₂, none)
        | some cl => labelStep cl img₂ bb classColour
    | none =>
      match classes with
      | none => (img₁, none)
      | some cl => labelStep cl img₁ bb classColour

/-- The detection loop: process each detection in order, stopping at the
first raise (the pixels painted so far stay painted). -/
def drawLoop (colours : List (List ℚ)) (classes : Option (List String)) :
    Image → List (BoundingBox × Option SegmentationLabel) → Image × Option PyErr
  | img, [] => (img, none)
  | img, d :: rest =>
    match processDetection colours classes img d.1 d.2 with
    | (img', some e) => (img', some e)
    | (img', none) => drawLoop colours classes img' rest

/-- Python `needle in haystack` on strings. -/
def strContains (needle haystack : String) : Bool :=
  decide (needle.toList <:+: haystack.toList)

/-- `draw_detection_msg_on_image`: pick the palette channel order from the
encoding, treat an empty `instances` list as absent masks, reject a
nonempty mask list whose length differs from the box list before the loop,
then run the loop.  The image part of the result is the buffer as the call
leaves it (unchanged when the length check raises). -/
def draw_detection_msg_on_image (img : Image) (msg : DetectionMsg)
    (encoding : String) : Image × Option PyErr :=
  let colours := if strContains "rgb" encoding then defaultColourList
                 else defaultColourList.map List.reverse
  if msg.instances.isEmpty then
    drawLoop colours msg.class_labels img (msg.bounding_boxes.map (fun b => (b, none)))
  else if msg.bounding_boxes.length ≠ msg.instances.length then
    (img, some .valueError)
  else
    drawLoop colours msg.class_labels img (msg.bounding_boxes.zip (msg.instances.map some))

/-- The renderer restricted to box outlines only: the fold of the rectangle
step, used to state that absent optional fields skip the mask and label
features. -/
def drawBoxesOnly (colours : List (List ℚ)) : Image → List BoundingBox → Image
  | img, [] => img
  | img, bb :: rest =>
    drawBoxesOnly colours
      (drawRect img (pyInt bb.x1, pyInt bb.y1) (pyInt bb.x2, pyInt bb.y2)
        ((labelColoursGet colours bb.class_id).getD [])) rest

/-- The renderer's pipeline with the mask feature removed, following the
spec's "absent optional fields mean skip that feature": per detection, the
colour is resolved, the outline drawn, and the label tag drawn when class
names are present — no blending anywhere, and no shape check on account of
masks. -/
def drawSkipMasks (colours : List (List ℚ)) (classes : Option (List String)) :
    Image → List BoundingBox → Image × Option PyErr
  | img, [] => (img, none)
  | img, bb :: rest =>
    match labelColoursGet colours bb.class_id with
    | none => (img, some .zeroDivisionError)
    | some classColour =>
      let img₁ := drawRect img (pyInt bb.x1, pyInt bb.y1) (pyInt bb.x2, pyInt bb.y2)
        classColour
      match classes with
      | none => drawSkipMasks colours classes img₁ rest
      | some cl =>
        match labelStep cl img₁ bb classColour with
        | (img₂, some e) => (img₂, some e)
        | (img₂, none) => drawSkipMasks colours classes img₂ rest

/-- The renderer's pipeline with the label feature removed, following the
spec's "absent optional fields mean skip that feature": per detection, the
colour is resolved, the outline drawn, and the mask blended when one is
present — no class-name lookup and no label tag anywhere. -/
def drawSkipLabels (colours : List (List ℚ)) :
    Image → List (BoundingBox × Option SegmentationLabel) → Image × Option PyErr
  | img, [] => (img, none)
  | img, d :: rest =>
    match labelColoursGet colours d.1.class_id with
    | none => (img, some .zeroDivisionError)
    | some classColour =>
      let img₁ := drawRect img (pyInt d.1.x1, pyInt d.1.y1) (pyInt d.1.x2, pyInt d.1.y2)
        classColour
      match d.2 with
      | none => drawSkipLabels colours img₁ rest
      | some sg =>
        match blendMasked img₁ sg.x sg.y classColour with
        | .error e => (img₁, some e)
        | .ok img₂ => drawSkipLabels colours img₂ rest

/-! ## MarkerPublisher -/

/-- The mutable state of a `MarkerPublisher`: its colour sub-palette and the
private `__last_object_id` counter. -/
structure MarkerPublisherState where
  colours : List (List ℚ)
  lastObjectId : Int
  deriving DecidableEq, Repr

/-- `MarkerPublisher.__init__`: the palette defaults to `[[1.0, 1.0, 1.0]]`;
when `max(colours[0]) > 1` every component of every colour is divided by 255;
the id counter starts at -1.  `colours[0]` raises `IndexError` on an empty
list and `max` raises `ValueError` on an empty first colour. -/
def mkMarkerPublisher (colours : Option (List (List ℚ))) :
    Except PyErr MarkerPublisherState :=
  let cs := colours.getD [[1, 1, 1]]
  match cs with
  | [] => .error .indexError
  | c₀ :: _ =>
    match c₀.max? with
    | none => .error .valueError
    | some m =>
      .ok ⟨if m > 1 then cs.map (fun c => c.map (· / 255)) else cs, -1⟩

/-- A message published on the marker channel: the delete-all marker
(`Marker(action=3)`) or one `ADD` sphere marker. -/
inductive MarkerOut where
  | clear
  | add (id : Int) (pos : List PyVal) (colour : List ℚ) (lifetime : ℚ)
  deriving DecidableEq, Repr

/-- `MarkerPublisher.clear_markers`: publish the delete-all marker and reset
the id counter to -1. -/
def clearMarkers (st : MarkerPublisherState) :
    List MarkerOut × MarkerPublisherState :=
  ([.clear], { st with lastObjectId := -1 })

/-- The outcome of processing a batch of points: the markers published, the
entries reported via `rospy.logerr`, the final value of the id counter, and
the exception that escaped, if any. -/
structure VisResult where
  published : List MarkerOut
  logs : List (List PyVal)
  lastId : Int
  err : Option PyErr
  deriving DecidableEq, Repr

/-- The `for point_info in point_information` loop of
`MarkerPublisher.visualise_points`: entries whose length is not 3 or 4 are
logged and skipped; otherwise the id counter is advanced
(`marker.id = self.get_object_id()`), the colour is looked up by plain list
subscription (`self.colours[colour_id]`, raising on a bad subscript — note the
counter has already been advanced), its three channels are read, and the
marker is published.  A raise aborts the loop, keeping what was already
published. -/
def processPoints (colours : List (List ℚ)) (duration : Option ℚ) :
    Int → List (List PyVal) → VisResult
  | lastId, [] => ⟨[], [], lastId, none⟩
  | lastId, p :: rest =>
    if p.length = 3 ∨ p.length = 4 then
      let colourId : PyVal := if p.length = 4 then (p.get? 3).getD (.int 0) else .int 0
      let newId := lastId + 1
      match pyListGetVal colours colourId with
      | .error e => ⟨[], [], newId, some e⟩
      | .ok colour =>
        match pyListGet colour 0 with
        | .error e => ⟨[], [], newId, some e⟩
        | .ok r =>
          match pyListGet colour 1 with
          | .error e => ⟨[], [], newId, some e⟩
          | .ok g =>
            match pyListGet colour 2 with
            | .error e => ⟨[], [], newId, some e⟩
            | .ok b =>
              let res := processPoints colours duration newId rest
              ⟨.add newId (p.take 3) [r, g, b] (duration.getD 0) :: res.published,
               res.logs, res.lastId, res.err⟩
    else
      let res := processPoints colours duration lastId rest
      ⟨res.published, p :: res.logs, res.lastId, res.err⟩

/-- The outcome of one `visualise_points` call: everything published on the
channel (delete-all marker included), the logged entries, the publisher state
after the call, and the escaped exception, if any. -/
structure VisOutcome where
  published : List MarkerOut
  logs : List (List PyVal)
  state : MarkerPublisherState
  err : Option PyErr
  deriving DecidableEq, Repr

/-- `MarkerPublisher.visualise_points(point_information, header, clear,
duration)`: clear first when asked (delete-all marker published, counter
reset), then run the point loop. -/
def visualisePoints (st : MarkerPublisherState) (pts : List (List PyVal))
    (clear : Bool) (duration : Option ℚ) : VisOutcome :=
  let st₁ := if clear then (clearMarkers st).2 else st
  let pre : List MarkerOut := if clear then (clearMarkers st).1 else []
  let res := processPoints st₁.colours duration st₁.lastObjectId pts
  ⟨pre ++ res.published, res.logs, { st₁ with lastObjectId := res.lastId }, res.err⟩

/-- The ids of the `ADD` markers in a published stream, in publish order. -/
def markerIds (pub : List MarkerOut) : List Int :=
  pub.filterMap fun m => match m with | .clear => none | .add i _ _ _ => some i

/-! ## PoseArrayPublisher -/

/-- One pose of a `PoseArray`: a position and the identity orientation
(`Quaternion(w=1)`). -/
structure PoseMsg where
  position : ℚ × ℚ × ℚ
  orientationW : ℚ
  deriving DecidableEq, Repr

/-- `geometry_msgs.msg.Point(*pts)` under genpy message-class semantics: a
constructor called with positional arguments requires exactly one argument
per field (three here), except that calling with zero arguments builds the
all-zero default; any other count raises `TypeError`. -/
def mkPoint (pts : List ℚ) : Except PyErr (ℚ × ℚ × ℚ) :=
  match pts with
  | [] => .ok (0, 0, 0)
  | [x, y, z] => .ok (x, y, z)
  | _ => .error .typeError

/-- The pose-building loop of `PoseArrayPublisher.visualise_points`: one
`Pose(position=Point(*pts), orientation=Quaternion(w=1))` per entry, aborting
on the first raise. -/
def buildPoses : List (List ℚ) → Except PyErr (List PoseMsg)
  | [] => .ok []
  | pts :: rest => do
    let p ← mkPoint pts
    let ps ← buildPoses rest
    pure (⟨p, 1⟩ :: ps)

/-- `PoseArrayPublisher.visualise_points`: build every pose, then publish the
single `PoseArray`; a raise while building reaches the caller before the
publish line, so nothing is published. -/
def poseVisualisePoints (xyz : List (List ℚ)) :
    List (List PoseMsg) × Option PyErr :=
  match buildPoses xyz with
  | .error e => ([], some e)
  | .ok poses => ([poses], none)

/-! ## Helper lemmas -/

theorem pyListGet_natCast {α : Type} (xs : List α) (k : ℕ) :
    pyListGet xs (k : Int) =
      match xs.get? k with
      | some a => .ok a
      | none => .error .indexError := by
  have h0 : ¬ ((k : Int) < 0) := by omega
  simp only [pyListGet, h0, if_false, Int.toNat_natCast]

theorem labelColoursGet_eq {α : Type} (cs : List α) (i : Int) :
    labelColoursGet cs i =
      if cs.length = 0 then none else cs.get? (i.natAbs % cs.length) := by
  have habs : (if i < 0 then i * (-1) else i) = (i.natAbs : Int) := by
    split <;> omega
  rw [labelColoursGet, habs]
  by_cases hlen : cs.length = 0
  · have : (i.natAbs : Int) ≥ (cs.length : Int) := by omega
    simp [this, hlen]
  · have hpos : 0 < cs.length := Nat.pos_of_ne_zero hlen
    by_cases hge : (i.natAbs : Int) ≥ (cs.length : Int)
    · have hcast : (i.natAbs : Int) % (cs.length : Int) = ((i.natAbs % cs.length : ℕ) : Int) := by
        omega
      rw [if_pos hge, if_neg hlen, hcast, pyListGet_natCast]
      generalize cs.get? (i.natAbs % cs.length) = o
      cases o <;> simp [hlen]
    · have hlt : i.natAbs < cs.length := by omega
      rw [if_neg hge, pyListGet_natCast, if_neg hlen, Nat.mod_eq_of_lt hlt]
      generalize cs.get? i.natAbs = o
      cases o <;> simp [hlen]

/-! ## Claim theorems: the colour palette (C2, C8) -/

/-- **C2, counterexample.**  Cyclicity fails on the negative side of the
absolute-value fold: with the default 22-entry palette, `lookup(-1)` is the
entry at index 1 while `lookup(-1 + 1·22) = lookup(21)` is the last entry, so
`lookup(i) = lookup(i + k*length)` is false at `i = -1`, `k = 1`. -/
theorem c2_counterexample :
    labelColoursGet defaultColourList (-1) ≠
      labelColoursGet defaultColourList (-1 + 1 * (defaultColourList.length : Int)) := by
  decide

/-- **C2 (amended).**  Palette lookup satisfies `lookup(i) = lookup(-i)` for
every integer `i` and every palette; the cyclicity
`lookup(i) = lookup(i + k*length)` holds when `i` and `k` are both
non-negative (on the negative side the absolute-value fold breaks it, see the
counterexample). -/
theorem c2_amended :
    (∀ (α : Type) (cs : List α) (i : Int),
        labelColoursGet cs i = labelColoursGet cs (-i)) ∧
    (∀ (α : Type) (cs : List α) (i k : ℕ),
        labelColoursGet cs (i : Int) =
          labelColoursGet cs ((i : Int) + (k : Int) * (cs.length : Int))) := by
  constructor
  · intro α cs i
    rw [labelColoursGet_eq, labelColoursGet_eq, Int.natAbs_neg]
  · intro α cs i k
    rw [labelColoursGet_eq, labelColoursGet_eq]
    by_cases hlen : cs.length = 0
    · simp [hlen]
    · have h1 : ((i : Int) + (k : Int) * (cs.length : Int)).natAbs = i + k * cs.length := by
        omega

      have h0 : ((i : Int)).natAbs = i := by omega
      rw [if_neg hlen, if_neg hlen, h1, h0, Nat.add_mul_mod_self_right]

/-- **C8.**  Palette lookup is total on every nonempty palette: for every
integer `i` (negative included) it returns the entry at position
`|i| mod length` and never fails. -/
theorem c8_lookup_total {α : Type} (cs : List α) (h : cs ≠ []) (i : Int) :
    labelColoursGet cs i = cs.get? (i.natAbs % cs.length) ∧
      ∃ a, labelColoursGet cs i = some a := by
  have hlen : cs.length ≠ 0 := by simpa [List.length_eq_zero] using h
  have h1 : labelColoursGet cs i = cs.get? (i.natAbs % cs.length) := by
    rw [labelColoursGet_eq, if_neg hlen]
  refine ⟨h1, ?_⟩
  have hlt : i.natAbs % cs.length < cs.length := Nat.mod_lt _ (Nat.pos_of_ne_zero hlen)
  exact ⟨_, by rw [h1, List.get?_eq_get hlt]⟩

/-- Witness for C8: the default palette at index `-25`. -/
theorem c8_witness :
    labelColoursGet defaultColourList (-25) =
        defaultColourList.get? ((-25 : Int).natAbs % defaultColourList.length) ∧
      ∃ a, labelColoursGet defaultColourList (-25) = some a :=
  c8_lookup_total defaultColourList (by decide) (-25)

/-! ## Claim theorems: MarkerPublisher construction (C7) -/

theorem lt_foldl_max (t : List ℚ) (b a : ℚ) :
    a < t.foldl max b ↔ a < b ∨ ∃ x ∈ t, a < x := by
  induction t generalizing b with
  | nil => simp
  | cons c t ih =>
    rw [List.foldl_cons, ih, lt_max_iff]
    simp [or_assoc]

/-- **C7, counterexample.**  Normalisation inspects only the first colour:
the palette `[[1,1,1],[255,0,0]]` has a component above 1 (in its second
colour), yet it is stored unchanged, because `max(colours[0]) = 1 ≤ 1`. -/
theorem c7_counterexample :
    (∃ c ∈ [[(1 : ℚ), 1, 1], [255, 0, 0]], ∃ x ∈ c, 1 < x) ∧
    mkMarkerPublisher (some [[1, 1, 1], [255, 0, 0]]) =
      .ok ⟨[[1, 1, 1], [255, 0, 0]], -1⟩ ∧
    ([[(1 : ℚ), 1, 1], [255, 0, 0]] : List (List ℚ)) ≠
      [[(1 : ℚ), 1, 1], [255, 0, 0]].map (fun c => c.map (· / 255)) := by
  refine ⟨by decide, by rfl, by norm_num⟩

/-- **C7 (amended).**  At `MarkerPublisher` construction only the FIRST colour
of the supplied sub-palette is inspected: if some component of `colours[0]`
exceeds 1, every component of every colour in the set is divided by 255;
otherwise the palette is stored unchanged — even when a later colour has
components above 1. -/
theorem c7_first_colour_normalisation (c₀ : List ℚ) (rest : List (List ℚ)) (h₀ : c₀ ≠ []) :
    mkMarkerPublisher (some (c₀ :: rest)) =
      .ok ⟨if ∃ x ∈ c₀, 1 < x then (c₀ :: rest).map (fun c => c.map (· / 255))
           else c₀ :: rest, -1⟩ := by
  obtain ⟨b, t, rfl⟩ : ∃ b t, c₀ = b :: t := by
    cases c₀ with
    | nil => exact absurd rfl h₀
    | cons b t => exact ⟨b, t, rfl⟩
  have hm : (b :: t).max? = some (t.foldl max b) := rfl
  have hiff : (1 < t.foldl max b) ↔ (∃ x ∈ b :: t, 1 < x) := by
    rw [lt_foldl_max]
    simp
  simp only [mkMarkerPublisher, Option.getD_some, hm, gt_iff_lt]
  by_cases h1 : 1 < t.foldl max b
  · rw [if_pos h1, if_pos (hiff.mp h1)]
  · rw [if_neg h1, if_neg (fun hc => h1 (hiff.mpr hc))]

/-- Witness for C7 (amended): a first colour with a component above 1 gets the
whole palette rescaled. -/
theorem c7_witness :
    ([(2 : ℚ), 0] ≠ []) ∧
    mkMarkerPublisher (some [[2, 0], [4, 8]]) =
      .ok ⟨if ∃ x ∈ [(2 : ℚ), 0], 1 < x then [[(2 : ℚ), 0], [4, 8]].map (fun c => c.map (· / 255))
           else [[2, 0], [4, 8]], -1⟩ :=
  ⟨by decide, c7_first_colour_normalisation [2, 0] [[4, 8]] (by decide)⟩

/-! ## Helper lemmas: the point loop of `MarkerPublisher.visualise_points` -/

theorem pyListGet_zero {α : Type} (a : α) (l : List α) : pyListGet (a :: l) 0 = .ok a := rfl

theorem pyListGet_one {α : Type} (a b : α) (l : List α) : pyListGet (a :: b :: l) 1 = .ok b := rfl

theorem pyListGet_two {α : Type} (a b d : α) (l : List α) :
    pyListGet (a :: b :: d :: l) 2 = .ok d := rfl

theorem markerIds_append (l₁ l₂ : List MarkerOut) :
    markerIds (l₁ ++ l₂) = markerIds l₁ ++ markerIds l₂ := by
  simp [markerIds]

theorem markerIds_cons_add (id' : Int) (pos : List PyVal) (col : List ℚ) (lt' : ℚ)
    (tl : List MarkerOut) :
    markerIds (.add id' pos col lt' :: tl) = id' :: markerIds tl := by
  simp [markerIds]

theorem markerIds_cons_clear (tl : List MarkerOut) :
    markerIds (.clear :: tl) = markerIds tl := by
  simp [markerIds]

/-- Processing a batch of well-formed `[x, y, z]` points over a usable palette
(first colour with at least three channels): one marker per point, ids
consecutive from `i + 1`, no log, no raise. -/
theorem processPoints_valid_batch (r g b : ℚ) (ct : List ℚ) (rest : List (List ℚ))
    (dur : Option ℚ) (pts : List (List PyVal)) (hv : ∀ p ∈ pts, p.length = 3) : ∀ i : Int,
    markerIds (processPoints ((r :: g :: b :: ct) :: rest) dur i pts).published =
        (List.range pts.length).map (fun k : ℕ => i + 1 + (k : Int)) ∧
      (processPoints ((r :: g :: b :: ct) :: rest) dur i pts).logs = [] ∧
      (processPoints ((r :: g :: b :: ct) :: rest) dur i pts).lastId = i + pts.length ∧
      (processPoints ((r :: g :: b :: ct) :: rest) dur i pts).err = none := by
  induction pts with
  | nil => intro i; simp [processPoints, markerIds]
  | cons p pts ih =>
    intro i
    have hp : p.length = 3 := hv p (List.mem_cons_self p pts)
    have hv' : ∀ q ∈ pts, q.length = 3 := fun q hq => hv q (List.mem_cons_of_mem p hq)
    obtain ⟨ih1, ih2, ih3, ih4⟩ := ih hv' (i + 1)
    simp only [processPoints, hp]
    rw [if_pos (show True ∨ (3 : ℕ) = 4 from Or.inl trivial),
      if_neg (show ¬(3 : ℕ) = 4 by omega)]
    simp only [pyListGetVal, pyListGet_zero, pyListGet_one, pyListGet_two]
    refine ⟨?_, ih2, by rw [ih3]; push_cast [List.length_cons]; ring, ih4⟩
    rw [markerIds_cons_add, ih1, List.length_cons, List.range_succ_eq_map, List.map_cons,
      List.map_map]
    refine List.cons_eq_cons.mpr ⟨by simp, ?_⟩
    exact List.map_congr_left fun k _ => by
      simp only [Function.comp_apply]
      push_cast
      ring

/-- One well-formed `[x, y, z]` point over a usable palette: counter
advanced, marker published, loop continues. -/
theorem processPoints_step3 (r g b : ℚ) (ct : List ℚ) (rest : List (List ℚ))
    (dur : Option ℚ) (i : Int) (p : List PyVal) (pts : List (List PyVal))
    (hp : p.length = 3) :
    processPoints ((r :: g :: b :: ct) :: rest) dur i (p :: pts) =
      ⟨.add (i + 1) (p.take 3) [r, g, b] (dur.getD 0) ::
         (processPoints ((r :: g :: b :: ct) :: rest) dur (i + 1) pts).published,
       (processPoints ((r :: g :: b :: ct) :: rest) dur (i + 1) pts).logs,
       (processPoints ((r :: g :: b :: ct) :: rest) dur (i + 1) pts).lastId,
       (processPoints ((r :: g :: b :: ct) :: rest) dur (i + 1) pts).err⟩ := by
  simp only [processPoints, hp]
  rw [if_pos (show True ∨ (3 : ℕ) = 4 from Or.inl trivial),
    if_neg (show ¬(3 : ℕ) = 4 by omega)]
  simp only [pyListGetVal, pyListGet_zero, pyListGet_one, pyListGet_two]

/-- A length-4 point whose fourth component is not a usable subscript into the
sub-palette advances the id counter but aborts the loop with the raised
exception; nothing after it is processed and nothing is logged. -/
theorem processPoints_abort (colours : List (List ℚ)) (dur : Option ℚ) (i : Int)
    (p : List PyVal) (hp : p.length = 4) (v : PyVal) (hv : p.get? 3 = some v)
    (e : PyErr) (he : pyListGetVal colours v = .error e) (pts : List (List PyVal)) :
    processPoints colours dur i (p :: pts) = ⟨[], [], i + 1, some e⟩ := by
  simp only [processPoints, hp, hv]
  rw [if_pos (show (4 : ℕ) = 3 ∨ True from Or.inr trivial), if_pos (show True from trivial)]
  simp only [Option.getD_some, he]

/-- A batch of well-formed points followed by a point with a bad colour
subscript: the loop publishes the leading markers (ids consecutive from
`i + 1`) and then raises; the later points are never processed. -/
theorem processPoints_valid_then_abort (r g b : ℚ) (ct : List ℚ) (rest : List (List ℚ))
    (dur : Option ℚ) (pts₁ : List (List PyVal)) (hv : ∀ q ∈ pts₁, q.length = 3)
    (p : List PyVal) (hp : p.length = 4) (v : PyVal) (hvv : p.get? 3 = some v)
    (e : PyErr) (he : pyListGetVal ((r :: g :: b :: ct) :: rest) v = .error e)
    (pts₂ : List (List PyVal)) : ∀ i : Int,
    (processPoints ((r :: g :: b :: ct) :: rest) dur i (pts₁ ++ p :: pts₂)).err = some e ∧
      markerIds (processPoints ((r :: g :: b :: ct) :: rest) dur i (pts₁ ++ p :: pts₂)).published =
        (List.range pts₁.length).map (fun k : ℕ => i + 1 + (k : Int)) := by
  induction pts₁ with
  | nil =>
    intro i
    rw [List.nil_append, processPoints_abort _ dur i p hp v hvv e he pts₂]
    simp [markerIds]
  | cons q t ih =>
    intro i
    have hq : q.length = 3 := hv q (List.mem_cons_self q t)
    have hv' : ∀ x ∈ t, x.length = 3 := fun x hx => hv x (List.mem_cons_of_mem q hx)
    obtain ⟨ih1, ih2⟩ := ih hv' (i + 1)
    rw [List.cons_append, processPoints_step3 r g b ct rest dur i q _ hq]
    refine ⟨ih1, ?_⟩
    rw [markerIds_cons_add, ih2, List.length_cons, List.range_succ_eq_map, List.map_cons,
      List.map_map]
    refine List.cons_eq_cons.mpr ⟨by simp, ?_⟩
    exact List.map_congr_left fun k _ => by
      simp only [Function.comp_apply]
      push_cast
      ring

/-- A `visualise_points` call with `clear=True` over a usable palette and
well-formed points publishes markers with ids `0, 1, 2, …` regardless of the
previous counter value. -/
theorem visualisePoints_clear_ids (st : MarkerPublisherState) (r g b : ℚ) (ct : List ℚ)
    (rest : List (List ℚ)) (hcol : st.colours = (r :: g :: b :: ct) :: rest)
    (pts : List (List PyVal)) (hpts : ∀ p ∈ pts, p.length = 3) (dur : Option ℚ) :
    markerIds (visualisePoints st pts true dur).published =
      (List.range pts.length).map (fun k : ℕ => (k : Int)) := by
  obtain ⟨hids, -, -, -⟩ := processPoints_valid_batch r g b ct rest dur pts hpts (-1)
  simp only [visualisePoints, clearMarkers, if_true, List.singleton_append]
  rw [markerIds_cons_clear]
  simp only [hcol] at hids ⊢
  rw [hids]
  exact List.map_congr_left fun k _ => by push_cast; ring

/-- A `visualise_points` call with `clear=False` on a state whose counter sits
at `-1` (as it does right after `clear_markers`) publishes markers with ids
`0, 1, 2, …` and no delete-all marker. -/
theorem visualisePoints_noclear_ids (st : MarkerPublisherState) (hlast : st.lastObjectId = -1)
    (r g b : ℚ) (ct : List ℚ) (rest : List (List ℚ))
    (hcol : st.colours = (r :: g :: b :: ct) :: rest)
    (pts : List (List PyVal)) (hpts : ∀ p ∈ pts, p.length = 3) (dur : Option ℚ) :
    markerIds (visualisePoints st pts false dur).published =
      (List.range pts.length).map (fun k : ℕ => (k : Int)) := by
  obtain ⟨hids, -, -, -⟩ := processPoints_valid_batch r g b ct rest dur pts hpts (-1)
  simp only [visualisePoints, clearMarkers, Bool.false_eq_true, if_false, List.nil_append]
  simp only [hcol, hlast] at hids ⊢
  rw [hids]
  exact List.map_congr_left fun k _ => by push_cast; ring

/-! ## Claim theorems: marker ids and the point loop (C5, C9, C1) -/

/-- **C5.**  Marker ids restart at 0 after each clear: over a usable palette
and well-formed points, a `visualise_points` call with `clearFirst=false`
right after `clear()` assigns ids `0, 1, 2, …` in point order, and the second
of two consecutive clear-and-redraw calls (`clearFirst=true` both times)
assigns ids `0 … len(pts₂)-1` regardless of what the first call published. -/
theorem c5_ids_start_at_zero_after_clear (st : MarkerPublisherState) (r g b : ℚ)
    (ct : List ℚ) (rest : List (List ℚ)) (hcol : st.colours = (r :: g :: b :: ct) :: rest)
    (pts₁ pts₂ : List (List PyVal)) (h₁ : ∀ p ∈ pts₁, p.length = 3)
    (h₂ : ∀ p ∈ pts₂, p.length = 3) (dur : Option ℚ) :
    markerIds (visualisePoints (clearMarkers st).2 pts₁ false dur).published =
        (List.range pts₁.length).map (fun k : ℕ => (k : Int)) ∧
      markerIds
          (visualisePoints (visualisePoints st pts₁ true dur).state pts₂ true dur).published =
        (List.range pts₂.length).map (fun k : ℕ => (k : Int)) := by
  constructor
  · exact visualisePoints_noclear_ids (clearMarkers st).2 rfl r g b ct rest hcol pts₁ h₁ dur
  · exact visualisePoints_clear_ids _ r g b ct rest hcol pts₂ h₂ dur

/-- Witness for C5: a dirty counter (41), five then three points. -/
theorem c5_witness :
    (⟨[[1, 1, 1]], 41⟩ : MarkerPublisherState).colours = ((1 : ℚ) :: 1 :: 1 :: []) :: [] ∧
    (∀ p ∈ List.replicate 5 [PyVal.int 0, PyVal.int 0, PyVal.int 0], p.length = 3) ∧
    (∀ p ∈ List.replicate 3 [PyVal.int 0, PyVal.int 0, PyVal.int 0], p.length = 3) ∧
    (markerIds (visualisePoints (clearMarkers ⟨[[1, 1, 1]], 41⟩).2
          (List.replicate 5 [PyVal.int 0, PyVal.int 0, PyVal.int 0]) false none).published =
        (List.range (List.replicate 5 [PyVal.int 0, PyVal.int 0, PyVal.int 0]).length).map
          (fun k : ℕ => (k : Int)) ∧
      markerIds (visualisePoints
            (visualisePoints ⟨[[1, 1, 1]], 41⟩
              (List.replicate 5 [PyVal.int 0, PyVal.int 0, PyVal.int 0]) true none).state
            (List.replicate 3 [PyVal.int 0, PyVal.int 0, PyVal.int 0]) true none).published =
        (List.range (List.replicate 3 [PyVal.int 0, PyVal.int 0, PyVal.int 0]).length).map
          (fun k : ℕ => (k : Int))) :=
  ⟨rfl, by decide, by decide,
    c5_ids_start_at_zero_after_clear ⟨[[1, 1, 1]], 41⟩ 1 1 1 [] [] rfl
      (List.replicate 5 [PyVal.int 0, PyVal.int 0, PyVal.int 0])
      (List.replicate 3 [PyVal.int 0, PyVal.int 0, PyVal.int 0])
      (by decide) (by decide) none⟩

/-- **C9.**  The sub-palette has no modulo wraparound: when a length-4 point
carries a fourth component that is not a usable subscript into the sub-palette
(the plain Python subscription raises), the call aborts with that exception —
the well-formed points before it keep their published markers (ids `0 …`),
and no later point is published. -/
theorem c9_bad_colour_subscript_aborts (st : MarkerPublisherState) (r g b : ℚ)
    (ct : List ℚ) (rest : List (List ℚ)) (hcol : st.colours = (r :: g :: b :: ct) :: rest)
    (pts₁ : List (List PyVal)) (h₁ : ∀ q ∈ pts₁, q.length = 3)
    (p : List PyVal) (hp : p.length = 4) (v : PyVal) (hvv : p.get? 3 = some v)
    (e : PyErr) (he : pyListGetVal ((r :: g :: b :: ct) :: rest) v = .error e)
    (pts₂ : List (List PyVal)) (dur : Option ℚ) :
    (visualisePoints st (pts₁ ++ p :: pts₂) true dur).err = some e ∧
      markerIds (visualisePoints st (pts₁ ++ p :: pts₂) true dur).published =
        (List.range pts₁.length).map (fun k : ℕ => (k : Int)) := by
  obtain ⟨herr, hids⟩ :=
    processPoints_valid_then_abort r g b ct rest dur pts₁ h₁ p hp v hvv e he pts₂ (-1)
  constructor
  · simp only [visualisePoints, clearMarkers, if_true]
    simpa [hcol] using herr
  · simp only [visualisePoints, clearMarkers, if_true, List.singleton_append]
    rw [markerIds_cons_clear]
    simp only [hcol] at hids ⊢
    rw [hids]
    exact List.map_congr_left fun k _ => by push_cast; ring

/-- Witness for C9: one good point, then `(4,5,6,7)` whose colour index 7 is
out of range for the one-colour sub-palette, then one more point that is
never published. -/
theorem c9_witness :
    (⟨[[1, 1, 1]], -1⟩ : MarkerPublisherState).colours = ((1 : ℚ) :: 1 :: 1 :: []) :: [] ∧
    ([PyVal.int 4, PyVal.int 5, PyVal.int 6, PyVal.int 7].get? 3 = some (PyVal.int 7)) ∧
    (pyListGetVal (((1 : ℚ) :: 1 :: 1 :: []) :: []) (PyVal.int 7) = .error .indexError) ∧
    ((visualisePoints ⟨[[1, 1, 1]], -1⟩
          ([[PyVal.int 1, PyVal.int 2, PyVal.int 3]] ++
            [PyVal.int 4, PyVal.int 5, PyVal.int 6, PyVal.int 7] ::
              [[PyVal.int 9, PyVal.int 9, PyVal.int 9]]) true none).err =
        some .indexError ∧
      markerIds (visualisePoints ⟨[[1, 1, 1]], -1⟩
          ([[PyVal.int 1, PyVal.int 2, PyVal.int 3]] ++
            [PyVal.int 4, PyVal.int 5, PyVal.int 6, PyVal.int 7] ::
              [[PyVal.int 9, PyVal.int 9, PyVal.int 9]]) true none).published =
        (List.range ([[PyVal.int 1, PyVal.int 2, PyVal.int 3]] :
            List (List PyVal)).length).map (fun k : ℕ => (k : Int))) :=
  ⟨rfl, rfl, rfl,
    c9_bad_colour_subscript_aborts ⟨[[1, 1, 1]], -1⟩ 1 1 1 [] [] rfl
      [[PyVal.int 1, PyVal.int 2, PyVal.int 3]] (by decide)
      [PyVal.int 4, PyVal.int 5, PyVal.int 6, PyVal.int 7] (by decide)
      (PyVal.int 7) rfl .indexError rfl
      [[PyVal.int 9, PyVal.int 9, PyVal.int 9]] none⟩

/-- **C1, counterexample.**  On `[(1,2,3), (4,5,6,"bad"), (7,8,9,0)]` the
second entry has length 4, so it passes the arity check; the palette
subscription `colours["bad"]` then raises an uncaught `TypeError`: only ONE
marker (id 0) is published — not the two markers with ids 0 and 1 the claim
promises — and the call fails instead of proceeding. -/
theorem c1_counterexample :
    mkMarkerPublisher none = .ok ⟨[[1, 1, 1]], -1⟩ ∧
    visualisePoints ⟨[[1, 1, 1]], -1⟩
        [[.int 1, .int 2, .int 3], [.int 4, .int 5, .int 6, .str "bad"],
         [.int 7, .int 8, .int 9, .int 0]] true none =
      ⟨[.clear, .add 0 [.int 1, .int 2, .int 3] [1, 1, 1] 0], [], ⟨[[1, 1, 1]], 1⟩,
       some .typeError⟩ :=
  ⟨by rfl, by decide⟩

/-- **C1 (amended).**  Only entries of the wrong arity (length neither 3 nor
4) are per-item errors that are logged and skipped while the rest of the
batch proceeds; a length-4 entry with a non-integer colour component passes
that check and the palette subscription raises an uncaught `TypeError`, so
`[(1,2,3), (4,5,6,"bad"), (7,8,9,0)]` publishes exactly one marker (id 0) and
the call fails. -/
theorem c1_amended :
    (∀ (colours : List (List ℚ)) (dur : Option ℚ) (i : Int) (p : List PyVal)
        (rest : List (List PyVal)), ¬(p.length = 3 ∨ p.length = 4) →
        processPoints colours dur i (p :: rest) =
          ⟨(processPoints colours dur i rest).published,
           p :: (processPoints colours dur i rest).logs,
           (processPoints colours dur i rest).lastId,
           (processPoints colours dur i rest).err⟩) ∧
    (visualisePoints ⟨[[1, 1, 1]], -1⟩
        [[.int 1, .int 2, .int 3], [.int 4, .int 5, .int 6, .str "bad"],
         [.int 7, .int 8, .int 9, .int 0]] true none).err = some .typeError ∧
    markerIds (visualisePoints ⟨[[1, 1, 1]], -1⟩
        [[.int 1, .int 2, .int 3], [.int 4, .int 5, .int 6, .str "bad"],
         [.int 7, .int 8, .int 9, .int 0]] true none).published = [0] := by
  refine ⟨?_, by decide, by decide⟩
  intro colours dur i p rest h
  rw [processPoints, if_neg h]

/-- Witness for C1 (amended): a length-2 entry is logged and skipped, the
rest of the batch proceeds. -/
theorem c1_witness :
    (¬([PyVal.int 1, PyVal.int 2].length = 3 ∨ [PyVal.int 1, PyVal.int 2].length = 4)) ∧
    processPoints [[1, 1, 1]] none 5
        ([PyVal.int 1, PyVal.int 2] :: [[PyVal.int 0, PyVal.int 0, PyVal.int 0]]) =
      ⟨(processPoints [[1, 1, 1]] none 5 [[PyVal.int 0, PyVal.int 0, PyVal.int 0]]).published,
       [PyVal.int 1, PyVal.int 2] ::
         (processPoints [[1, 1, 1]] none 5 [[PyVal.int 0, PyVal.int 0, PyVal.int 0]]).logs,
       (processPoints [[1, 1, 1]] none 5 [[PyVal.int 0, PyVal.int 0, PyVal.int 0]]).lastId,
       (processPoints [[1, 1, 1]] none 5 [[PyVal.int 0, PyVal.int 0, PyVal.int 0]]).err⟩ :=
  ⟨by decide,
    c1_amended.1 [[1, 1, 1]] none 5 [PyVal.int 1, PyVal.int 2]
      [[PyVal.int 0, PyVal.int 0, PyVal.int 0]] (by decide)⟩

/-! ## Helper lemmas: the mask blend -/

theorem npNormList_mem (h w : ℕ) (l : List (Int × Int)) :
    ∀ (idxs : List (ℕ × ℕ)), npNormList h w l = some idxs →
    ∀ (k : ℕ) (p : Int × Int), l.get? k = some p →
    ∀ (q : ℕ × ℕ), npNormPair h w p.1 p.2 = some q → q ∈ idxs := by
  induction l with
  | nil => intro idxs _ k p hp; simp at hp
  | cons a t ih =>
    intro idxs hl k p hp q hq
    cases ha : npNormPair h w a.1 a.2 with
    | none => simp [npNormList, ha] at hl
    | some qa =>
      cases ht : npNormList h w t with
      | none => simp [npNormList, ha, ht] at hl
      | some qs =>
        have hidx : idxs = qa :: qs := by
          rw [npNormList, ha, ht] at hl
          simpa using hl.symm
        subst hidx
        cases k with
        | zero =>
          have hpa : a = p := by simpa using hp
          subst hpa
          have : qa = q := by rw [ha] at hq; simpa using hq
          subst this
          exact List.mem_cons_self qa qs
        | succ k =>
          have hpt : t.get? k = some p := by simpa using hp
          exact List.mem_cons_of_mem qa (ih qs ht k p hpt q hq)

theorem getPx_imageMap2 (img : Image) (f : ℕ → ℕ → List ℕ → List ℕ) (r c : ℕ)
    (row : List (List ℕ)) (hr : img.get? r = some row) (px : List ℕ)
    (hc : row.get? c = some px) :
    getPx (imageMap2 img f) r c = f r c px := by
  rw [List.get?_eq_getElem?] at hr hc
  simp [getPx, imageMap2, List.get?_eq_getElem?, List.getElem?_mapIdx, hr, hc]

/-- A successful `image[mask] = image[mask]*0.5 + class_colour_f` assignment
rewrites every masked pixel to its blend against the original buffer. -/
theorem blendMasked_ok_px (img : Image) (xs ys : List Int) (cc : List ℚ) (out : Image)
    (h : blendMasked img xs ys cc = .ok out) (k : ℕ) (x y : Int) (r c : ℕ)
    (hx : xs.get? k = some x) (hy : ys.get? k = some y)
    (hn : npNormPair (imgHeight img) (imgWidth img) x y = some (r, c)) :
    getPx out r c = blendPixel (getPx img r c) cc := by
  rw [blendMasked] at h
  by_cases hlen : xs.length = ys.length
  · rw [if_neg (fun hne => hne hlen)] at h
    cases hidx : npNormList (imgHeight img) (imgWidth img) (xs.zip ys) with
    | none => rw [hidx] at h; exact absurd h (by simp)
    | some idxs =>
      rw [hidx] at h
      have hout : out = imageMap2 img fun r c px =>
          if (r, c) ∈ idxs then blendPixel px cc else px := by
        simpa using h.symm
      subst hout
      have hzip : (xs.zip ys).get? k = some (x, y) :=
        (List.get?_zip_eq_some xs ys (x, y) k).mpr ⟨hx, hy⟩
      have hmem : (r, c) ∈ idxs := npNormList_mem _ _ _ idxs hidx k (x, y) hzip (r, c) hn
      cases hr : img.get? r with
      | none =>
        rw [List.get?_eq_getElem?] at hr
        simp [getPx, imageMap2, List.get?_eq_getElem?, List.getElem?_mapIdx, hr, blendPixel]
      | some row =>
        cases hc : row.get? c with
        | none =>
          rw [List.get?_eq_getElem?] at hr hc
          simp [getPx, imageMap2, List.get?_eq_getElem?, List.getElem?_mapIdx, hr, hc,
            blendPixel]
        | some px =>
          rw [getPx_imageMap2 img _ r c row hr px hc, if_pos hmem]
          have : getPx img r c = px := by
            rw [List.get?_eq_getElem?] at hr hc
            simp [getPx, List.get?_eq_getElem?, hr, hc]
          rw [this]
  · rw [if_pos hlen] at h
    exact absurd h (by simp)

/-! ## Claim theorems: the renderer (C3, C4, C6) -/

/-- **C3, counterexample.**  An empty masks list is treated as "masks absent"
(`detection_msg.instances if detection_msg.instances else None`), so masks
supplied with count 0 against 1 bounding box do NOT fail: the call draws and
returns no error, refuting "always fails with ShapeMismatchError". -/
theorem c3_counterexample :
    (([] : List SegmentationLabel).length ≠
        ([⟨0, 0, 0, 0, 0, 0⟩] : List BoundingBox).length) ∧
    (draw_detection_msg_on_image [[[0, 0, 0]]] ⟨none, [⟨0, 0, 0, 0, 0, 0⟩], []⟩ "rgb8").2 =
      none :=
  ⟨by decide, by decide⟩

/-- **C3 (amended).**  Whenever a NONEMPTY masks list is supplied with a count
different from the bounding-box count, the call fails with the
`ShapeMismatchError` (`ValueError`) before any drawing, and the image buffer
is returned byte-identical to its pre-call state. -/
theorem c3_nonempty_mismatch_fails (img : Image) (msg : DetectionMsg) (enc : String)
    (hne : msg.instances ≠ []) (hlen : msg.bounding_boxes.length ≠ msg.instances.length) :
    draw_detection_msg_on_image img msg enc = (img, some .valueError) := by
  have h1 : msg.instances.isEmpty = false := by
    cases hmsg : msg.instances with
    | nil => exact absurd hmsg hne
    | cons a t => rfl
  rw [draw_detection_msg_on_image, h1]
  simp only [Bool.false_eq_true, if_false, if_pos hlen]

/-- Witness for C3 (amended): one mask against zero boxes raises and leaves
the buffer untouched. -/
theorem c3_witness :
    (([⟨[], []⟩] : List SegmentationLabel) ≠ []) ∧
    (([] : List BoundingBox).length ≠ ([⟨[], []⟩] : List SegmentationLabel).length) ∧
    draw_detection_msg_on_image [[[5, 5, 5]]] ⟨none, [], [⟨[], []⟩]⟩ "rgb8" =
      ([[[5, 5, 5]]], some .valueError) :=
  ⟨by decide, by decide,
    c3_nonempty_mismatch_fails [[[5, 5, 5]]] ⟨none, [], [⟨[], []⟩]⟩ "rgb8"
      (by decide) (by decide)⟩

theorem labelColoursGet_isSome {α : Type} (cs : List α) (h : cs ≠ []) (i : Int) :
    ∃ a, labelColoursGet cs i = some a := by
  have hlen : cs.length ≠ 0 := by simpa [List.length_eq_zero] using h
  rw [labelColoursGet_eq, if_neg hlen]
  exact ⟨_, List.get?_eq_get (Nat.mod_lt _ (Nat.pos_of_ne_zero hlen))⟩

theorem drawLoop_no_masks_no_classes (colours : List (List ℚ)) (hcol : colours ≠ [])
    (boxes : List BoundingBox) : ∀ img : Image,
    drawLoop colours none img (boxes.map (fun b => (b, none))) =
      (drawBoxesOnly colours img boxes, none) := by
  induction boxes with
  | nil => intro img; rfl
  | cons bb t ih =>
    intro img
    obtain ⟨cc, hcc⟩ := labelColoursGet_isSome colours hcol bb.class_id
    simp only [List.map_cons, drawLoop, processDetection, hcc, drawBoxesOnly,
      Option.getD_some]
    exact ih _

/-- With an empty instances list the loop is exactly the mask-free pipeline,
whatever the class-names field holds. -/
theorem drawLoop_skip_masks (colours : List (List ℚ)) (classes : Option (List String))
    (boxes : List BoundingBox) : ∀ img : Image,
    drawLoop colours classes img (boxes.map (fun b => (b, none))) =
      drawSkipMasks colours classes img boxes := by
  induction boxes with
  | nil => intro img; rfl
  | cons bb t ih =>
    intro img
    rw [List.map_cons]
    cases hcc : labelColoursGet colours bb.class_id with
    | none => simp only [drawLoop, processDetection, hcc, drawSkipMasks]
    | some cc =>
      cases classes with
      | none =>
        simp only [drawLoop, processDetection, hcc, drawSkipMasks]
        exact ih _
      | some cl =>
        simp only [drawLoop, processDetection, hcc, drawSkipMasks]
        cases hls : labelStep cl (drawRect img (pyInt bb.x1, pyInt bb.y1)
            (pyInt bb.x2, pyInt bb.y2) cc) bb cc with
        | mk img₂ err =>
          cases err with
          | none => simp only []; exact ih _
          | some e => rfl

/-- With an absent class-names field the loop is exactly the label-free
pipeline, whether or not masks are present. -/
theorem drawLoop_skip_labels (colours : List (List ℚ))
    (dets : List (BoundingBox × Option SegmentationLabel)) : ∀ img : Image,
    drawLoop colours none img dets = drawSkipLabels colours img dets := by
  induction dets with
  | nil => intro img; rfl
  | cons d t ih =>
    intro img
    cases hcc : labelColoursGet colours d.1.class_id with
    | none => simp only [drawLoop, processDetection, hcc, drawSkipLabels]
    | some cc =>
      cases hseg : d.2 with
      | none =>
        simp only [drawLoop, processDetection, hcc, hseg, drawSkipLabels]
        exact ih _
      | some sg =>
        simp only [drawLoop, processDetection, hcc, hseg, drawSkipLabels]
        cases hb : blendMasked (drawRect img (pyInt d.1.x1, pyInt d.1.y1)
            (pyInt d.1.x2, pyInt d.1.y2) cc) sg.x sg.y cc with
        | error e => rfl
        | ok img₂ => exact ih _

/-- **C4.**  Each absent optional field just skips its feature, never raising
on account of it: (1) with the masks field absent (empty) the render equals
the mask-free pipeline — outline and label tags only, no blending and no
shape check — whatever the class-names field holds; (2) with the class-names
field absent the render equals the label-free pipeline — outline and blending
only, no label tags — also when masks are present (and matched, so the render
reaches the loop); (3) with both fields absent the render draws exactly the
box outlines and returns no error. -/
theorem c4_absent_optional_fields_skip :
    (∀ (img : Image) (msg : DetectionMsg) (enc : String), msg.instances = [] →
      draw_detection_msg_on_image img msg enc =
        drawSkipMasks (if strContains "rgb" enc then defaultColourList
            else defaultColourList.map List.reverse) msg.class_labels img
          msg.bounding_boxes) ∧
    (∀ (img : Image) (msg : DetectionMsg) (enc : String), msg.class_labels = none →
      msg.instances ≠ [] → msg.bounding_boxes.length = msg.instances.length →
      draw_detection_msg_on_image img msg enc =
        drawSkipLabels (if strContains "rgb" enc then defaultColourList
            else defaultColourList.map List.reverse) img
          (msg.bounding_boxes.zip (msg.instances.map some))) ∧
    (∀ (img : Image) (msg : DetectionMsg) (enc : String), msg.class_labels = none →
      msg.instances = [] →
      draw_detection_msg_on_image img msg enc =
        (drawBoxesOnly (if strContains "rgb" enc then defaultColourList
            else defaultColourList.map List.reverse) img msg.bounding_boxes, none)) := by
  refine ⟨?_, ?_, ?_⟩
  · intro img msg enc hin
    rw [draw_detection_msg_on_image, hin]
    simp only [List.isEmpty_nil, if_true]
    exact drawLoop_skip_masks _ msg.class_labels msg.bounding_boxes img
  · intro img msg enc hcl hne hlen
    have h1 : msg.instances.isEmpty = false := by
      cases hmsg : msg.instances with
      | nil => exact absurd hmsg hne
      | cons a t => rfl
    rw [draw_detection_msg_on_image, h1, hcl]
    simp only [Bool.false_eq_true, if_false]
    rw [if_neg (fun h => h hlen)]
    exact drawLoop_skip_labels _ (msg.bounding_boxes.zip (msg.instances.map some)) img
  · intro img msg enc hcl hin
    have hne : (if strContains "rgb" enc then defaultColourList
        else defaultColourList.map List.reverse) ≠ [] := by
      split
      · simp [defaultColourList]
      · simp [defaultColourList]
    rw [draw_detection_msg_on_image, hin, hcl]
    simp only [List.isEmpty_nil, if_true]
    exact drawLoop_no_masks_no_classes _ hne msg.bounding_boxes img

/-- Witness for C4, exercising the mixed cases: masks absent with class names
present, and class names absent with one matching mask present. -/
theorem c4_witness :
    ((⟨some ["straw"], [⟨0, 0, 0, 0, 0, 0⟩], []⟩ : DetectionMsg).instances = []) ∧
    draw_detection_msg_on_image [[[0, 0, 0]]] ⟨some ["straw"], [⟨0, 0, 0, 0, 0, 0⟩], []⟩
        "rgb8" =
      drawSkipMasks (if strContains "rgb" "rgb8" then defaultColourList
          else defaultColourList.map List.reverse)
        (⟨some ["straw"], [⟨0, 0, 0, 0, 0, 0⟩], []⟩ : DetectionMsg).class_labels
        [[[0, 0, 0]]] [⟨0, 0, 0, 0, 0, 0⟩] ∧
    ((⟨none, [⟨0, 0, 0, 0, 0, 0⟩], [⟨[0], [0]⟩]⟩ : DetectionMsg).class_labels = none) ∧
    ((⟨none, [⟨0, 0, 0, 0, 0, 0⟩], [⟨[0], [0]⟩]⟩ : DetectionMsg).instances ≠ []) ∧
    ((⟨none, [⟨0, 0, 0, 0, 0, 0⟩], [⟨[0], [0]⟩]⟩ : DetectionMsg).bounding_boxes.length =
      (⟨none, [⟨0, 0, 0, 0, 0, 0⟩], [⟨[0], [0]⟩]⟩ : DetectionMsg).instances.length) ∧
    draw_detection_msg_on_image [[[0, 0, 0]]] ⟨none, [⟨0, 0, 0, 0, 0, 0⟩], [⟨[0], [0]⟩]⟩
        "rgb8" =
      drawSkipLabels (if strContains "rgb" "rgb8" then defaultColourList
          else defaultColourList.map List.reverse) [[[0, 0, 0]]]
        ([(⟨0, 0, 0, 0, 0, 0⟩ : BoundingBox)].zip
          (([⟨[0], [0]⟩] : List SegmentationLabel).map some)) :=
  ⟨rfl,
    c4_absent_optional_fields_skip.1 [[[0, 0, 0]]]
      ⟨some ["straw"], [⟨0, 0, 0, 0, 0, 0⟩], []⟩ "rgb8" rfl,
    rfl, by decide, rfl,
    c4_absent_optional_fields_skip.2.1 [[[0, 0, 0]]]
      ⟨none, [⟨0, 0, 0, 0, 0, 0⟩], [⟨[0], [0]⟩]⟩ "rgb8" rfl (by decide) rfl⟩

/-- **C6.**  For a detection with a mask, every masked pixel is updated by the
blend `new = old*0.5 + (colour/2)` — the colour operand itself halved before
the addition, the float result truncated on the `uint8` store — where `old` is
the buffer value right after the box outline is drawn and the colour is the
one resolved from the detection's `class_id`; moreover the pipeline applies
the label step (when class names are present) only after this blend. -/
theorem c6_mask_blend_formula (colours : List (List ℚ)) (img : Image) (bb : BoundingBox)
    (sg : SegmentationLabel) (classColour : List ℚ)
    (hcc : labelColoursGet colours bb.class_id = some classColour) :
    (∀ out : Image, processDetection colours none img bb (some sg) = (out, none) →
      ∀ (k : ℕ) (x y : Int) (r c : ℕ), sg.x.get? k = some x → sg.y.get? k = some y →
        npNormPair
            (imgHeight (drawRect img (pyInt bb.x1, pyInt bb.y1) (pyInt bb.x2, pyInt bb.y2)
              classColour))
            (imgWidth (drawRect img (pyInt bb.x1, pyInt bb.y1) (pyInt bb.x2, pyInt bb.y2)
              classColour)) x y = some (r, c) →
        getPx out r c =
          (getPx (drawRect img (pyInt bb.x1, pyInt bb.y1) (pyInt bb.x2, pyInt bb.y2)
              classColour) r c).mapIdx
            (fun (j : ℕ) (v : ℕ) =>
              u8 ((v : ℚ) * (1 / 2) + ((classColour.get? j).getD 0) / 2))) ∧
    (∀ (cl : List String) (img₂ : Image),
      blendMasked (drawRect img (pyInt bb.x1, pyInt bb.y1) (pyInt bb.x2, pyInt bb.y2)
          classColour) sg.x sg.y classColour = .ok img₂ →
      processDetection colours (some cl) img bb (some sg) = labelStep cl img₂ bb classColour) := by
  constructor
  · intro out hok k x y r c hx hy hn
    simp only [processDetection, hcc] at hok
    cases hb : blendMasked (drawRect img (pyInt bb.x1, pyInt bb.y1)
        (pyInt bb.x2, pyInt bb.y2) classColour) sg.x sg.y classColour with
    | error e => rw [hb] at hok; exact absurd (congrArg Prod.snd hok) (by simp)
    | ok img₂ =>
      rw [hb] at hok
      have hfst : img₂ = out := congrArg Prod.fst hok
      subst hfst
      exact blendMasked_ok_px _ _ _ _ _ hb k x y r c hx hy hn
  · intro cl img₂ hb
    simp only [processDetection, hcc, hb]

/-- Witness for C6: a 1×1 image with pixel `[100,100,100]`, colour
`[10,20,30]`, box outside the image, mask covering pixel `(0,0)`. -/
theorem c6_witness :
    (labelColoursGet [[(10 : ℚ), 20, 30]] ((⟨5, 5, 6, 6, 0, 0⟩ : BoundingBox).class_id) =
        some [10, 20, 30]) ∧
    ((processDetection [[(10 : ℚ), 20, 30]] none [[[100, 100, 100]]] ⟨5, 5, 6, 6, 0, 0⟩
        (some ⟨[0], [0]⟩)).2 = none) ∧
    getPx (processDetection [[(10 : ℚ), 20, 30]] none [[[100, 100, 100]]] ⟨5, 5, 6, 6, 0, 0⟩
        (some ⟨[0], [0]⟩)).1 0 0 =
      (getPx (drawRect [[[100, 100, 100]]]
          (pyInt (⟨5, 5, 6, 6, 0, 0⟩ : BoundingBox).x1, pyInt (⟨5, 5, 6, 6, 0, 0⟩ : BoundingBox).y1)
          (pyInt (⟨5, 5, 6, 6, 0, 0⟩ : BoundingBox).x2, pyInt (⟨5, 5, 6, 6, 0, 0⟩ : BoundingBox).y2)
          [10, 20, 30]) 0 0).mapIdx
        (fun (j : ℕ) (v : ℕ) =>
          u8 ((v : ℚ) * (1 / 2) + (([(10 : ℚ), 20, 30].get? j).getD 0) / 2)) := by
  have h2 : (processDetection [[(10 : ℚ), 20, 30]] none [[[100, 100, 100]]]
      ⟨5, 5, 6, 6, 0, 0⟩ (some ⟨[0], [0]⟩)).2 = none := by decide
  refine ⟨rfl, h2, ?_⟩
  exact (c6_mask_blend_formula [[(10 : ℚ), 20, 30]] [[[100, 100, 100]]] ⟨5, 5, 6, 6, 0, 0⟩
      ⟨[0], [0]⟩ [10, 20, 30] rfl).1
    (processDetection [[(10 : ℚ), 20, 30]] none [[[100, 100, 100]]] ⟨5, 5, 6, 6, 0, 0⟩
      (some ⟨[0], [0]⟩)).1
    (Prod.ext rfl h2) 0 0 0 0 0 rfl rfl (by decide)

/-! ## Claim theorems: PoseArrayPublisher (C10) -/

theorem mkPoint_bad_arity (a : List ℚ) (h0 : a.length ≠ 0) (h3 : a.length ≠ 3) :
    mkPoint a = .error .typeError := by
  match a with
  | [] => exact absurd rfl h0
  | [x] => rfl
  | [x, y] => rfl
  | [x, y, z] => exact absurd rfl h3
  | x :: y :: z :: w :: t => rfl

theorem mkPoint_shape (a : List ℚ) :
    mkPoint a = .error .typeError ∨ ∃ pt, mkPoint a = .ok pt := by
  match a with
  | [] => exact Or.inr ⟨_, rfl⟩
  | [x] => exact Or.inl rfl
  | [x, y] => exact Or.inl rfl
  | [x, y, z] => exact Or.inr ⟨_, rfl⟩
  | x :: y :: z :: w :: t => exact Or.inl rfl

theorem buildPoses_error (xyz : List (List ℚ)) :
    (∃ p ∈ xyz, p.length ≠ 3 ∧ p.length ≠ 0) →
    buildPoses xyz = .error .typeError := by
  induction xyz with
  | nil => rintro ⟨p, hm, -⟩; simp at hm
  | cons a t ih =>
    rintro ⟨p, hm, hp3, hp0⟩
    rcases List.mem_cons.mp hm with rfl | hmt
    · rw [buildPoses, mkPoint_bad_arity p hp0 hp3]
      rfl
    · rcases mkPoint_shape a with ha | ⟨pt, ha⟩
      · rw [buildPoses, ha]; rfl
      · rw [buildPoses, ha]
        simp [ih ⟨p, hmt, hp3, hp0⟩]
        rfl

/-- **C10, counterexample.**  An empty entry does not have exactly 3
components, yet `Point(*pts)` with zero positional arguments builds the
all-zero default point under genpy semantics: nothing raises, and one pose
IS published. -/
theorem c10_counterexample :
    (([] : List ℚ).length ≠ 3) ∧
    poseVisualisePoints [([] : List ℚ)] = ([[⟨(0, 0, 0), 1⟩]], none) :=
  ⟨by decide, by decide⟩

/-- **C10 (amended).**  An entry with a nonzero number of components other
than 3 makes its `Point` constructor raise before the publish step, and then
nothing is published at all — the single pose-list publish happens only after
every pose has been built.  (An empty entry builds the default `(0,0,0)`
point instead of raising.) -/
theorem c10_bad_entry_publishes_nothing (xyz : List (List ℚ))
    (h : ∃ p ∈ xyz, p.length ≠ 3 ∧ p.length ≠ 0) :
    poseVisualisePoints xyz = ([], some .typeError) := by
  rw [poseVisualisePoints, buildPoses_error xyz h]

/-- Witness for C10 (amended): a 2-component entry aborts the whole call. -/
theorem c10_witness :
    (∃ p ∈ [[(1 : ℚ), 2], [0, 0, 0]], p.length ≠ 3 ∧ p.length ≠ 0) ∧
    poseVisualisePoints [[(1 : ℚ), 2], [0, 0, 0]] = ([], some .typeError) :=
  ⟨by decide, c10_bad_entry_publishes_nothing [[(1 : ℚ), 2], [0, 0, 0]] (by decide)⟩

end RasberryPerception
